import Mathlib

set_option maxRecDepth 8192

/-!
Verification of the MCP outline server (`src/index.js`).

The repository is a single-file Node service: it checks the `GEMINI_API_KEY`
environment variable at startup (exiting with code 1 when it is falsy),
registers one MCP tool `generateContentOutline` whose handler builds a fixed
prompt template around the caller's `topic`, awaits one
`model.generateContent` call, and returns `{ outline: text }` on success or
throws a fixed generic `Error` on any failure, after logging the underlying
error.  It also serves a static health-check string on `GET /`.

This file shallowly embeds that program.  The generative backend, the
environment, and the HTTP/Zod host framework are external collaborators and
are injected as parameters (a function `String → Except JsError GenResponse`
for `model.generateContent`, a function `String → Option String` for the
process environment); the definitions below otherwise follow `src/index.js`
line by line.
-/

namespace McpServer

/-- A JavaScript error value, as thrown/rejected by the backend client or
constructed with `new Error(message)`. -/
structure JsError where
  message : String
deriving DecidableEq, Repr

/-- The tool input after host-side schema validation:
`z.object({ topic: z.string() })` (src/index.js lines 36-38). -/
structure ToolRequest where
  topic : String
deriving DecidableEq, Repr

/-- The tool output: `z.object({ outline: z.string() })`
(src/index.js lines 40-42). -/
structure ToolResponse where
  outline : String
deriving DecidableEq, Repr

/-- The value `await model.generateContent(prompt)` resolves to.  The handler
only ever reads `result.response.text()`, which may itself throw; we model
that one observation as `textResult` (src/index.js lines 76-78). -/
structure GenResponse where
  textResult : Except JsError String
deriving Repr

/-- The fixed template text before the first `topic` substitution point
(src/index.js lines 49-51). -/
def promptPre : String :=
  "\n        You are an expert content strategist and editor.\n        A user wants to write a blog post about the following topic: \""

/-- The fixed template text between the two `topic` substitution points
(src/index.js lines 51-72). -/
def promptMid : String :=
  "\".\n\n        Your task is to generate a comprehensive, well-structured content outline for this blog post.\n        The outline should be logical, flow well, and cover the key aspects of the topic.\n        Use a multi-level format with headings and bullet points.\n\n        Example Structure:\n        I. Introduction\n           - Hook: Start with a compelling statistic or question.\n           - Briefly introduce the topic and its importance.\n           - State the main argument or what the reader will learn.\n        II. Main Point 1\n           - Sub-point A\n           - Sub-point B\n        III. Main Point 2\n           - Sub-point A\n           - Sub-point B\n        IV. Conclusion\n           - Summarize the key points.\n           - Offer a final thought or call to action.\n\n        Generate the outline now for the topic: \""

/-- The fixed template text after the second `topic` substitution point
(src/index.js lines 72-73). -/
def promptPost : String :=
  "\"\n      "

/-- The prompt the handler builds: the template literal of src/index.js
lines 49-73, which substitutes `input.topic` verbatim at two points
(line 51 and line 72). -/
def buildPrompt (topic : String) : String :=
  promptPre ++ topic ++ promptMid ++ topic ++ promptPost

/-- The message of the `Error` thrown on the failure path
(src/index.js line 85). -/
def backendErrorMessage : String :=
  "There was an issue contacting the AI content strategist."

/-- The fixed first argument of the failure-path `console.error`
(src/index.js line 84). -/
def geminiLogTag : String := "Error calling Gemini API:"

/-- Everything observable about one run of the `generateContentOutline`
handler: the prompts passed to `model.generateContent`, the
`console.error` lines emitted, and the settled outcome (return value or
thrown error). -/
structure Invocation where
  generateContentCalls : List String
  consoleErrors : List (String × JsError)
  outcome : Except JsError ToolResponse
deriving Repr

/-- The `generateContentOutline` handler (src/index.js lines 45-87), with the
backend call `model.generateContent` injected as `gen`.  The `try` block
builds the prompt, awaits the backend, reads `result.response.text()` and
returns `{ outline }`; the `catch` block logs the underlying error and throws
the fixed generic error. -/
def generateContentOutline (gen : String → Except JsError GenResponse)
    (input : ToolRequest) : Invocation :=
  let prompt := buildPrompt input.topic
  match gen prompt with
  | Except.error e =>
      { generateContentCalls := [prompt]
        consoleErrors := [(geminiLogTag, e)]
        outcome := Except.error (JsError.mk backendErrorMessage) }
  | Except.ok result =>
      match result.textResult with
      | Except.error e =>
          { generateContentCalls := [prompt]
            consoleErrors := [(geminiLogTag, e)]
            outcome := Except.error (JsError.mk backendErrorMessage) }
      | Except.ok outlineText =>
          { generateContentCalls := [prompt]
            consoleErrors := []
            outcome := Except.ok (ToolResponse.mk outlineText) }

/-- The two ways the awaited backend interaction can fail inside the `try`
block: `model.generateContent` rejects, or `response.text()` throws. -/
def backendFailsWith (gen : String → Except JsError GenResponse)
    (prompt : String) (e : JsError) : Prop :=
  gen prompt = Except.error e ∨
    ∃ r, gen prompt = Except.ok r ∧ r.textResult = Except.error e

/-- A JSON-like JavaScript value, as delivered to / produced by the Zod
schemas of the tool declaration. -/
inductive JsValue where
  | str (s : String)
  | num (n : Int)
  | boolean (b : Bool)
  | null
  | obj (fields : List (String × JsValue))

/-- JavaScript property lookup on an object literal's field list. -/
def lookupField : List (String × JsValue) → String → Option JsValue
  | [], _ => none
  | (k, v) :: rest, key => if k = key then some v else lookupField rest key

/-- The declared input schema `z.object({ topic: z.string() })`
(src/index.js lines 36-38): parsing succeeds exactly when the value is an
object whose `topic` property is a string — any string, with no length or
non-emptiness constraint. -/
def inputSchemaParse : JsValue → Option ToolRequest
  | JsValue.obj fields =>
      match lookupField fields "topic" with
      | some (JsValue.str s) => some (ToolRequest.mk s)
      | _ => none
  | _ => none

/-- The declared output schema `z.object({ outline: z.string() })`
(src/index.js lines 40-42). -/
def outputSchemaParse : JsValue → Option ToolResponse
  | JsValue.obj fields =>
      match lookupField fields "outline" with
      | some (JsValue.str s) => some (ToolResponse.mk s)
      | _ => none
  | _ => none

/-- The JSON encoding of the handler's successful return value
`return { outline: outlineText }` (src/index.js line 81): an object with
exactly the one field `outline`. -/
def encodeToolResponse (r : ToolResponse) : JsValue :=
  JsValue.obj [("outline", JsValue.str r.outline)]

/-- An HTTP response as produced by `res.send(string)`: Express sends the
string body with status 200. -/
structure HttpResponse where
  status : Nat
  body : String
deriving DecidableEq, Repr

/-- The health-check route `app.get('/')` (src/index.js lines 93-95): a
constant response, computed from nothing — in particular not from the
backend client or its state. -/
def rootHandler : HttpResponse :=
  { status := 200
    body := "AI Content Assistant MCP Server is running and ready to help!" }

/-- The console message printed when the credential is missing
(src/index.js line 17). -/
def missingKeyError : String :=
  "Error: GEMINI_API_KEY is not set in the environment."

/-- A process that got past the credential check and reached `app.listen`
(src/index.js lines 20-99): it holds the credential, the resolved port, and
serves the health-check route. -/
structure RunningServer where
  apiKey : String
  port : String
  rootGet : HttpResponse
deriving DecidableEq, Repr

/-- The outcome of process startup: either `process.exit` with a code (after
the listed console-error lines), or a listening server. -/
inductive StartupResult where
  | exited (code : Nat) (consoleErrors : List String)
  | serving (server : RunningServer)
deriving DecidableEq, Repr

/-- Process startup (src/index.js lines 11-21 and 90-99), with the
environment injected as `env`.  `process.env.PORT || 3000` falls back on a
missing or empty `PORT`; `if (!geminiApiKey)` treats a missing or empty
`GEMINI_API_KEY` as absent, logs an error and exits with code 1 before
`app.listen` is ever reached. -/
def startup (env : String → Option String) : StartupResult :=
  let port : String :=
    match env "PORT" with
    | some p => if p = "" then "3000" else p
    | none => "3000"
  match env "GEMINI_API_KEY" with
  | none => StartupResult.exited 1 [missingKeyError]
  | some key =>
      if key = "" then StartupResult.exited 1 [missingKeyError]
      else StartupResult.serving
        { apiKey := key, port := port, rootGet := rootHandler }

/-- `p.beginsWith s`: the character list `p` is an initial segment of `s`. -/
def beginsWith : List Char → List Char → Bool
  | [], _ => true
  | _ :: _, [] => false
  | p :: ps, c :: cs => if p = c then beginsWith ps cs else false

/-- The number of (possibly overlapping) occurrences of the pattern `p` as a
contiguous segment of `s`, counted over all start positions. -/
def countOccs (p : List Char) : List Char → Nat
  | [] => if p = [] then 1 else 0
  | c :: cs => (if beginsWith p (c :: cs) then 1 else 0) + countOccs p cs

/-- The health-check route is reachable only from a process that reached
`app.listen`. -/
def healthRouteReachable (r : StartupResult) : Prop :=
  ∃ s : RunningServer, r = StartupResult.serving s

/-! ### Helper lemmas -/

theorem string_data_append (a b : String) : (a ++ b).data = a.data ++ b.data := rfl

theorem beginsWith_self_append (p ys : List Char) :
    beginsWith p (p ++ ys) = true := by
  induction p with
  | nil => rfl
  | cons c cs ih => simp [beginsWith, ih]

theorem countOccs_le_append (p xs ys : List Char) :
    countOccs p ys ≤ countOccs p (xs ++ ys) := by
  induction xs with
  | nil => simp
  | cons c cs ih =>
      have h : countOccs p ((c :: cs) ++ ys)
          = (if beginsWith p (c :: (cs ++ ys)) then 1 else 0)
            + countOccs p (cs ++ ys) := rfl
      rw [h]
      omega

theorem countOccs_self_append (p ys : List Char) (hp : p ≠ []) :
    1 + countOccs p ys ≤ countOccs p (p ++ ys) := by
  match p, hp with
  | c :: cs, _ =>
    have h1 : countOccs (c :: cs) ((c :: cs) ++ ys)
        = (if beginsWith (c :: cs) (c :: (cs ++ ys)) then 1 else 0)
          + countOccs (c :: cs) (cs ++ ys) := rfl
    rw [h1]
    have h2 := beginsWith_self_append (c :: cs) ys
    simp only [List.cons_append] at h2
    rw [h2]
    have h3 := countOccs_le_append (c :: cs) cs ys
    simp only [if_pos]
    omega

theorem countOccs_nil_pattern (l : List Char) : countOccs [] l = l.length + 1 := by
  induction l with
  | nil => rfl
  | cons c cs ih =>
      simp [countOccs, beginsWith, ih]
      omega

theorem buildPrompt_data (t : String) :
    (buildPrompt t).data
      = promptPre.data ++ (t.data ++ (promptMid.data ++ (t.data ++ promptPost.data))) := by
  simp [buildPrompt, string_data_append, List.append_assoc]

/-- The topic occurs at least twice in the constructed prompt: once per
substitution point of the template. -/
theorem two_le_countOccs_topic (t : String) :
    2 ≤ countOccs t.data (buildPrompt t).data := by
  rw [buildPrompt_data]
  by_cases h : t.data = []
  · rw [h]
    rw [countOccs_nil_pattern]
    have hpre : 1 ≤ promptPre.data.length := by decide
    simp only [List.nil_append, List.length_append]
    omega
  · have h1 := countOccs_le_append t.data promptPre.data
      (t.data ++ (promptMid.data ++ (t.data ++ promptPost.data)))
    have h2 := countOccs_self_append t.data
      (promptMid.data ++ (t.data ++ promptPost.data)) h
    have h3 := countOccs_le_append t.data promptMid.data (t.data ++ promptPost.data)
    have h4 := countOccs_self_append t.data promptPost.data h
    omega

/-- Every run of the handler passes exactly the one constructed prompt to
`model.generateContent`, on every control path. -/
theorem calls_eq (gen : String → Except JsError GenResponse) (input : ToolRequest) :
    (generateContentOutline gen input).generateContentCalls = [buildPrompt input.topic] := by
  cases h1 : gen (buildPrompt input.topic) with
  | error e => simp [generateContentOutline, h1]
  | ok r =>
      cases h2 : r.textResult with
      | error e => simp [generateContentOutline, h1, h2]
      | ok t => simp [generateContentOutline, h1, h2]

/-- Success path: the backend's text is returned verbatim as `outline`. -/
theorem outcome_of_success (gen : String → Except JsError GenResponse)
    (topic : String) (r : GenResponse) (T : String)
    (h1 : gen (buildPrompt topic) = Except.ok r)
    (h2 : r.textResult = Except.ok T) :
    (generateContentOutline gen (ToolRequest.mk topic)).outcome
      = Except.ok (ToolResponse.mk T) := by
  simp [generateContentOutline, h1, h2]

/-- Failure path: the underlying error is logged once and the outcome is the
fixed generic error, independent of the underlying failure. -/
theorem failure_invocation (gen : String → Except JsError GenResponse)
    (topic : String) (e : JsError)
    (h : backendFailsWith gen (buildPrompt topic) e) :
    (generateContentOutline gen (ToolRequest.mk topic)).consoleErrors
        = [(geminiLogTag, e)]
      ∧ (generateContentOutline gen (ToolRequest.mk topic)).outcome
        = Except.error (JsError.mk backendErrorMessage) := by
  rcases h with h | ⟨r, h1, h2⟩
  · constructor <;> simp [generateContentOutline, h]
  · constructor <;> simp [generateContentOutline, h1, h2]

/-! ### Claim theorems -/

/-- C1 (counterexample): the claim "the prompt contains the literal topic
value embedded unmodified exactly once" is false at the concrete topic
`"@@"`: the template substitutes the topic at two points, so `"@@"` occurs
more than once in the constructed prompt. -/
theorem prompt_topic_count_not_one :
    countOccs ("@@".data) ((buildPrompt "@@").data) ≠ 1 := by
  have h := two_le_countOccs_topic "@@"
  omega

/-- C1 (amended): for every topic string, the prompt constructed by the
`generateContentOutline` handler embeds the literal topic value unmodified at
two substitution points — `prompt = pre ++ topic ++ mid ++ topic ++ post`
with fixed `pre`, `mid`, `post` — and hence contains it at least twice (not
exactly once) as a contiguous segment. -/
theorem prompt_embeds_topic_twice (t : String) :
    buildPrompt t = promptPre ++ t ++ promptMid ++ t ++ promptPost
      ∧ 2 ≤ countOccs t.data (buildPrompt t).data :=
  ⟨rfl, two_le_countOccs_topic t⟩

/-- C2 (counterexample): at a concrete backend failure the handler delivers
the fixed error `"There was an issue contacting the AI content strategist."`,
which is not the message the claim asserts
(`"there was an issue contacting the content strategist backend"`). -/
theorem generic_error_message_mismatch :
    (generateContentOutline (fun _ => Except.error (JsError.mk "network down"))
        (ToolRequest.mk "AI")).outcome
      = Except.error (JsError.mk backendErrorMessage)
    ∧ backendErrorMessage
      ≠ "there was an issue contacting the content strategist backend" := by
  constructor
  · rfl
  · decide

/-- C2 (amended): for every failure of the backend call (the awaited
`generateContent` call or the `response.text()` extraction throws/rejects),
the handler logs the underlying error once and fails the invocation with a
single generic error whose message is the fixed string
`"There was an issue contacting the AI content strategist."`; the delivered
error is this constant, so the original error detail never appears in it,
regardless of the underlying failure cause. -/
theorem backend_failure_masked_and_logged
    (gen : String → Except JsError GenResponse) (topic : String) (e : JsError)
    (h : backendFailsWith gen (buildPrompt topic) e) :
    (generateContentOutline gen (ToolRequest.mk topic)).consoleErrors
        = [(geminiLogTag, e)]
      ∧ (generateContentOutline gen (ToolRequest.mk topic)).outcome
        = Except.error
            (JsError.mk "There was an issue contacting the AI content strategist.") :=
  failure_invocation gen topic e h

/-- C2 (witness): a concrete rejecting backend exercises the theorem. -/
theorem backend_failure_masked_witness :
    (generateContentOutline (fun _ => Except.error (JsError.mk "quota exceeded"))
        (ToolRequest.mk "cats")).consoleErrors
        = [(geminiLogTag, JsError.mk "quota exceeded")]
      ∧ (generateContentOutline (fun _ => Except.error (JsError.mk "quota exceeded"))
        (ToolRequest.mk "cats")).outcome
        = Except.error
            (JsError.mk "There was an issue contacting the AI content strategist.") :=
  backend_failure_masked_and_logged
    (fun _ => Except.error (JsError.mk "quota exceeded")) "cats"
    (JsError.mk "quota exceeded") (Or.inl rfl)

/-- C3: one invocation of the handler has exactly one of two outcomes — a
`ToolResponse` whose `outline` is present, or a single generic backend
error — never both and never neither. -/
theorem invocation_exactly_one_outcome
    (gen : String → Except JsError GenResponse) (topic : String) :
    ((∃ t, (generateContentOutline gen (ToolRequest.mk topic)).outcome
          = Except.ok (ToolResponse.mk t))
        ∧ ¬ ∃ e, (generateContentOutline gen (ToolRequest.mk topic)).outcome
          = Except.error e)
      ∨ (((generateContentOutline gen (ToolRequest.mk topic)).outcome
          = Except.error (JsError.mk backendErrorMessage))
        ∧ ¬ ∃ t, (generateContentOutline gen (ToolRequest.mk topic)).outcome
          = Except.ok (ToolResponse.mk t)) := by
  cases h1 : gen (buildPrompt topic) with
  | error e =>
      right
      constructor
      · simp [generateContentOutline, h1]
      · intro ⟨t, ht⟩
        simp [generateContentOutline, h1] at ht
  | ok r =>
      cases h2 : r.textResult with
      | error e =>
          right
          constructor
          · simp [generateContentOutline, h1, h2]
          · intro ⟨t, ht⟩
            simp [generateContentOutline, h1, h2] at ht
      | ok t =>
          left
          constructor
          · exact ⟨t, by simp [generateContentOutline, h1, h2]⟩
          · intro ⟨e, he⟩
            simp [generateContentOutline, h1, h2] at he

/-- C4: whenever the backend resolves with text `T`, the handler returns
`{ outline := T }` with `T` passed through unchanged — no trimming,
truncation, reformatting or validation. -/
theorem success_outline_passthrough
    (gen : String → Except JsError GenResponse) (topic : String)
    (r : GenResponse) (T : String)
    (h1 : gen (buildPrompt topic) = Except.ok r)
    (h2 : r.textResult = Except.ok T) :
    (generateContentOutline gen (ToolRequest.mk topic)).outcome
      = Except.ok (ToolResponse.mk T) :=
  outcome_of_success gen topic r T h1 h2

/-- C4 (witness): a backend text with leading/trailing whitespace and inner
newlines comes back byte-for-byte. -/
theorem success_outline_passthrough_witness :
    (generateContentOutline
        (fun _ => Except.ok (GenResponse.mk (Except.ok "  I. Hook \n II. Point  ")))
        (ToolRequest.mk "gardening")).outcome
      = Except.ok (ToolResponse.mk "  I. Hook \n II. Point  ") :=
  success_outline_passthrough
    (fun _ => Except.ok (GenResponse.mk (Except.ok "  I. Hook \n II. Point  ")))
    "gardening" (GenResponse.mk (Except.ok "  I. Hook \n II. Point  "))
    "  I. Hook \n II. Point  " rfl rfl

/-- C5: every invocation performs exactly one `model.generateContent` call —
the one constructed prompt — on the success path and on both failure paths;
no retry ever happens. -/
theorem exactly_one_generateContent_call
    (gen : String → Except JsError GenResponse) (input : ToolRequest) :
    (generateContentOutline gen input).generateContentCalls
        = [buildPrompt input.topic]
      ∧ (generateContentOutline gen input).generateContentCalls.length = 1 :=
  ⟨calls_eq gen input, by rw [calls_eq]; rfl⟩

/-- C6: when `GEMINI_API_KEY` is absent from the environment, startup logs
the console error and exits with code 1 before `app.listen`, so no server is
ever serving and the health-check route is unreachable. -/
theorem missing_key_exits_before_listen
    (env : String → Option String) (h : env "GEMINI_API_KEY" = none) :
    startup env = StartupResult.exited 1 [missingKeyError]
      ∧ ¬ healthRouteReachable (startup env) := by
  constructor
  · simp [startup, h]
  · intro ⟨s, hs⟩
    simp [startup, h] at hs

/-- C6 (witness): the empty environment. -/
theorem missing_key_exits_witness :
    startup (fun _ => none) = StartupResult.exited 1 [missingKeyError]
      ∧ ¬ healthRouteReachable (startup (fun _ => none)) :=
  missing_key_exits_before_listen (fun _ => none) rfl

/-- C7: with the credential present the process serves, and every GET of the
root path receives status 200 with the static non-empty body — a constant of
the program, not a function of the backend. -/
theorem health_check_static_ok
    (env : String → Option String) (key : String)
    (h1 : env "GEMINI_API_KEY" = some key) (h2 : key ≠ "") :
    ∃ srv : RunningServer,
      startup env = StartupResult.serving srv
        ∧ srv.rootGet = rootHandler
        ∧ rootHandler.status = 200
        ∧ rootHandler.body ≠ "" := by
  have hs : startup env = StartupResult.serving
      { apiKey := key,
        port := match env "PORT" with
          | some p => if p = "" then "3000" else p
          | none => "3000",
        rootGet := rootHandler } := by
    simp [startup, h1, h2]
  exact ⟨_, hs, rfl, rfl, by decide⟩

/-- C7 (witness): a concrete environment holding a credential. -/
theorem health_check_static_ok_witness :
    ∃ srv : RunningServer,
      startup (fun v => if v = "GEMINI_API_KEY" then some "test-key" else none)
          = StartupResult.serving srv
        ∧ srv.rootGet = rootHandler
        ∧ rootHandler.status = 200
        ∧ rootHandler.body ≠ "" :=
  health_check_static_ok
    (fun v => if v = "GEMINI_API_KEY" then some "test-key" else none)
    "test-key" (by simp) (by decide)

/-- C8: prompt construction is a deterministic function of the topic alone:
every invocation sends exactly the fixed template with its own topic
substituted verbatim (no escaping) at the two substitution points, so two
invocations with the same topic build identical prompts, and an invocation's
prompt never incorporates another invocation's topic. -/
theorem prompt_deterministic_uncontaminated
    (gen gen' : String → Except JsError GenResponse) (t t' : String) :
    (generateContentOutline gen (ToolRequest.mk t)).generateContentCalls
        = [promptPre ++ t ++ promptMid ++ t ++ promptPost]
      ∧ (t = t' →
        (generateContentOutline gen (ToolRequest.mk t)).generateContentCalls
          = (generateContentOutline gen' (ToolRequest.mk t')).generateContentCalls) := by
  constructor
  · rw [calls_eq]
    rfl
  · intro h
    subst h
    rw [calls_eq, calls_eq]

/-- C8 (witness): two concrete invocations with the same topic but different
backend behaviours build the same single prompt. -/
theorem prompt_deterministic_witness :
    (generateContentOutline (fun _ => Except.error (JsError.mk "offline"))
        (ToolRequest.mk "space travel")).generateContentCalls
        = [promptPre ++ "space travel" ++ promptMid ++ "space travel" ++ promptPost]
      ∧ (generateContentOutline (fun _ => Except.error (JsError.mk "offline"))
        (ToolRequest.mk "space travel")).generateContentCalls
        = (generateContentOutline (fun _ => Except.ok (GenResponse.mk (Except.ok "done")))
          (ToolRequest.mk "space travel")).generateContentCalls := by
  have h := prompt_deterministic_uncontaminated
    (fun _ => Except.error (JsError.mk "offline"))
    (fun _ => Except.ok (GenResponse.mk (Except.ok "done")))
    "space travel" "space travel"
  exact ⟨h.1, h.2 rfl⟩

/-- C9: the declared input schema constrains `topic` only to be a string —
any string, including the empty one, parses — and on the empty topic the
handler still constructs the prompt (embedding the empty string) and performs
the backend call instead of rejecting the input. -/
theorem empty_topic_schema_and_call :
    inputSchemaParse (JsValue.obj [("topic", JsValue.str "")])
        = some (ToolRequest.mk "")
      ∧ (∀ s : String,
          inputSchemaParse (JsValue.obj [("topic", JsValue.str s)])
            = some (ToolRequest.mk s))
      ∧ ∀ gen : String → Except JsError GenResponse,
          (generateContentOutline gen (ToolRequest.mk "")).generateContentCalls
            = [buildPrompt ""] := by
  refine ⟨rfl, fun s => rfl, fun gen => calls_eq gen (ToolRequest.mk "")⟩

/-- C10: on every successful invocation the returned value is an object with
exactly the one field `outline` holding the backend's string, so it conforms
to the declared output schema `z.object({ outline: z.string() })`. -/
theorem success_conforms_output_schema
    (gen : String → Except JsError GenResponse) (topic : String)
    (r : GenResponse) (T : String)
    (h1 : gen (buildPrompt topic) = Except.ok r)
    (h2 : r.textResult = Except.ok T) :
    (generateContentOutline gen (ToolRequest.mk topic)).outcome
        = Except.ok (ToolResponse.mk T)
      ∧ encodeToolResponse (ToolResponse.mk T)
        = JsValue.obj [("outline", JsValue.str T)]
      ∧ outputSchemaParse (encodeToolResponse (ToolResponse.mk T))
        = some (ToolResponse.mk T) :=
  ⟨outcome_of_success gen topic r T h1 h2, rfl, rfl⟩

/-- C10 (witness): a concrete successful invocation. -/
theorem success_conforms_output_schema_witness :
    (generateContentOutline
        (fun _ => Except.ok (GenResponse.mk (Except.ok "III. Conclusion")))
        (ToolRequest.mk "history")).outcome
        = Except.ok (ToolResponse.mk "III. Conclusion")
      ∧ encodeToolResponse (ToolResponse.mk "III. Conclusion")
        = JsValue.obj [("outline", JsValue.str "III. Conclusion")]
      ∧ outputSchemaParse (encodeToolResponse (ToolResponse.mk "III. Conclusion"))
        = some (ToolResponse.mk "III. Conclusion") :=
  success_conforms_output_schema
    (fun _ => Except.ok (GenResponse.mk (Except.ok "III. Conclusion")))
    "history" (GenResponse.mk (Except.ok "III. Conclusion"))
    "III. Conclusion" rfl rfl

end McpServer
